import Mathlib

/-!
Verification of the GreenEye backend ingestion / auto-control pipeline.

Shallow embedding of the Python sources:
  * `backend_app/control_logic.py`  — auto-control evaluator (`check_and_apply_auto_control`)
  * `control_logic.py` (legacy root) — evaluator + `send_actuator_command` (which writes the
    actuator-state cache `plant_control_state:<id>:<dev>` after each publish)
  * `backend_app/services.py`       — payload decoding, field mapping, persistence, timestamps
  * `backend_app/database.py`       — `_derive_device_id_from_mac`

Python strings are modelled as lists of code points (`List Nat`); machine floats appearing as
JSON numbers are modelled as rationals; `None` is modelled with `Option`.
-/

set_option maxRecDepth 8000

namespace GreenEye

/-- Code points of a Lean string literal, used to write concrete Python strings. -/
def codes (s : String) : List Nat := s.data.map Char.toNat

/-! ## Auto-control evaluator, backend_app/control_logic.py lines 8-40

The evaluator reads the cached reading (`soil_moisture`, `light_lux`), the current KST hour and
the two cached actuator states, and publishes config payloads via `send_config_to_device`.
A config payload is modelled as the association list of its JSON object. -/

/-- A config payload sent by `send_config_to_device`: the dict literal from the source. -/
abbrev CPayload := List (String × Int)

/-- `{"water_pump_action": 1, "water_pump_duration": 5}` (control_logic.py line 29). -/
def pumpOnP : CPayload := [("water_pump_action", 1), ("water_pump_duration", 5)]

/-- `{"water_pump_action": 0}` (control_logic.py line 31). -/
def pumpOffP : CPayload := [("water_pump_action", 0)]

/-- `{"flash_en": 1, "flash_level": 128}` (control_logic.py line 35). -/
def ledOnP : CPayload := [("flash_en", 1), ("flash_level", 128)]

/-- `{"flash_en": 0}` (control_logic.py line 37). -/
def ledOffP : CPayload := [("flash_en", 0)]

/-- `{"flash_en": 0, "flash_nt": 1, "flash_level": 180}` (control_logic.py line 40). -/
def ledNightOffP : CPayload := [("flash_en", 0), ("flash_nt", 1), ("flash_level", 180)]

/-- backend_app/control_logic.py lines 27-31: the soil-moisture block.
`pump` is `current_pump_status` (`None` possible when the cached dict lacks `"status"`). -/
def pumpBranch (soil_moisture : Option ℚ) (pump : Option String) : List CPayload :=
  match soil_moisture with
  | none => []
  | some v =>
    if v < 300 ∧ pump ≠ some "on" then [pumpOnP]
    else if 700 < v ∧ pump ≠ some "off" then [pumpOffP]
    else []

/-- backend_app/control_logic.py lines 33-40: the light block.
`led` is `current_led_status` (the cached `flash_en` value, `None` possible). -/
def lightBranch (light_lux : Option ℚ) (hour : Nat) (led : Option Int) : List CPayload :=
  match light_lux with
  | some v =>
    if 7 ≤ hour ∧ hour ≤ 20 then
      if v < 500 ∧ led ≠ some 1 then [ledOnP]
      else if 800 < v ∧ led ≠ some 0 then [ledOffP]
      else []
    else if led ≠ some 0 then [ledNightOffP] else []
  | none => if led ≠ some 0 then [ledNightOffP] else []

/-- One evaluation cycle of `check_and_apply_auto_control` (backend_app/control_logic.py
lines 8-40), given the cached reading, hour, and cached actuator states; yields the list of
published config payloads, pump block first. -/
def check_and_apply_auto_control (soil_moisture light_lux : Option ℚ) (hour : Nat)
    (pump : Option String) (led : Option Int) : List CPayload :=
  pumpBranch soil_moisture pump ++ lightBranch light_lux hour led

/-- The actuator state implied by the current cached soil-moisture reading
(formalising the claim's "state implied by current conditions" for the pump). -/
def impliedPumpState (soil_moisture : Option ℚ) : Option String :=
  match soil_moisture with
  | some v => if v < 300 then some "on" else if 700 < v then some "off" else none
  | none => none

/-- The `flash_en` state implied by the cached lux reading and the hour
(formalising the claim's "state implied by current conditions" for the light):
inside active hours 7..20 the hysteresis thresholds apply, otherwise (or with the
lux reading absent) the implied state is off (0). -/
def impliedLedState (light_lux : Option ℚ) (hour : Nat) : Option Int :=
  match light_lux with
  | some v =>
    if 7 ≤ hour ∧ hour ≤ 20 then
      if v < 500 then some 1 else if 800 < v then some 0 else none
    else some 0
  | none => some 0

/-! ## Legacy evaluator pipeline, control_logic.py (root)

`send_actuator_command` (lines 13-29) publishes `{"action", "duration_sec", "timestamp"}` to
`plant/control/<id>/<dev>` and immediately overwrites the cached state
`plant_control_state:<id>:<dev>` with `{"status": action, ...}`.  The legacy
`check_and_apply_auto_control` (lines 45-103) reads that same cache; its soil-moisture rule
(lines 79-87) is the irrigation state machine of the claim. -/

/-- One actuator command published by the legacy `send_actuator_command`. -/
structure ActCmd where
  device : String
  action : String
  duration_sec : Nat
deriving DecidableEq

/-- `send_actuator_command(plant_id, "water_pump", "on", duration_sec=5)` (line 82). -/
def pumpOnCmd : ActCmd := ⟨"water_pump", "on", 5⟩

/-- `send_actuator_command(plant_id, "water_pump", "off")` (line 85). -/
def pumpOffCmd : ActCmd := ⟨"water_pump", "off", 0⟩

/-- One evaluation of the legacy soil-moisture rule (control_logic.py lines 79-87) together
with the cache update performed by `send_actuator_command` (line 28): returns the commands
emitted this cycle and the new cached pump status. -/
def legacy_pump_cycle (soil_moisture : Option ℚ) (status : Option String) :
    List ActCmd × Option String :=
  match soil_moisture with
  | none => ([], status)
  | some v =>
    if v < 300 ∧ status ≠ some "on" then ([pumpOnCmd], some "on")
    else if 700 < v ∧ status ≠ some "off" then ([pumpOffCmd], some "off")
    else ([], status)

/-- Iterated evaluation cycles over a sequence of cached readings, threading the cached
pump status; yields the list of commands emitted at each cycle. -/
def legacy_pump_run : List (Option ℚ) → Option String → List (List ActCmd)
  | [], _ => []
  | m :: rest, st =>
    let r := legacy_pump_cycle m st
    r.1 :: legacy_pump_run rest r.2

/-! ## Device identity resolution

`process_incoming_data` (backend_app/services.py lines 434-437) normalises a topic's trailing
segment, and `_derive_device_id_from_mac` (backend_app/database.py lines 23-37) derives the
4-char ID from a MAC.  Characters are code points (ASCII semantics of the Python `str`
methods involved). -/

/-- ASCII `str.upper` on one code point. -/
def upperN (c : Nat) : Nat := if 97 ≤ c ∧ c ≤ 122 then c - 32 else c

/-- ASCII `str.lower` on one code point. -/
def lowerN (c : Nat) : Nat := if 65 ≤ c ∧ c ≤ 90 then c + 32 else c

/-- Membership in `[0-9a-f]` (the regex character class of services.py line 436). -/
def isLowerHexN (c : Nat) : Bool := (48 ≤ c && c ≤ 57) || (97 ≤ c && c ≤ 102)

/-- Membership in `[0-9A-F]` (the class kept by database.py line 35). -/
def isUpperHexN (c : Nat) : Bool := (48 ≤ c && c ≤ 57) || (65 ≤ c && c ≤ 70)

/-- ASCII whitespace stripped by Python `str.strip()`. -/
def isPyWs (c : Nat) : Bool := c == 32 || c == 9 || c == 10 || c == 11 || c == 12 || c == 13

/-- Python `str.strip()` (ASCII whitespace). -/
def pyStripN (l : List Nat) : List Nat :=
  ((l.dropWhile isPyWs).reverse.dropWhile isPyWs).reverse

/-- Python `s[-4:]`. -/
def takeLast4 (l : List Nat) : List Nat := l.drop (l.length - 4)

/-- `_normalize_mac` (backend_app/database.py lines 13-21): underscore to hyphen, then upper. -/
def normalize_mac (mac : List Nat) : List Nat :=
  mac.map (fun c => upperN (if c = 95 then 45 else c))

/-- `norm.split("-")[-1]` (backend_app/database.py line 34): the segment after the last
hyphen, or the whole string when there is none. -/
def lastSeg (l : List Nat) : List Nat := (l.reverse.takeWhile (fun c => c != 45)).reverse

/-- Lines 35-36 of backend_app/database.py: keep `[0-9A-F]`, falling back to the raw
segment when that leaves nothing. -/
def hexBase (seg : List Nat) : List Nat :=
  if seg.filter isUpperHexN = [] then seg else seg.filter isUpperHexN

/-- `_derive_device_id_from_mac` (backend_app/database.py lines 23-37): normalise, take the
segment after the last hyphen, keep `[0-9A-F]` (falling back to the raw segment when that
leaves nothing), take the last 4 characters, lowercase. -/
def derive_device_id_from_mac (mac : List Nat) : List Nat :=
  if mac = [] then []
  else (takeLast4 (hexBase (lastSeg (normalize_mac mac)))).map lowerN

/-- Topic-segment normalisation of `process_incoming_data` (backend_app/services.py lines
434-437): `raw_id = seg.strip().lower()`, then
`re.fullmatch(r"(?:ge-sd-)?([0-9a-f]\x7b4\x7d)", raw_id)` — embedded directly: the whole
string is either 4 lower-hex chars, or `ge-sd-` followed by 4 lower-hex chars; on a match the
group is returned, otherwise `raw_id` itself. -/
def resolve_topic_id (raw : List Nat) : List Nat :=
  let t := (pyStripN raw).map lowerN
  if t.length = 4 ∧ t.all isLowerHexN then t
  else if t.length = 10 ∧ t.take 6 = codes "ge-sd-" ∧ (t.drop 6).all isLowerHexN then t.drop 6
  else t

/-- A canonical device ID: exactly 4 lowercase-hex code points. -/
def isCanonId (d : List Nat) : Prop := d.length = 4 ∧ d.all isLowerHexN = true

/-! ## JSON values and `json.loads`

`_safe_json_loads` (backend_app/services.py lines 41-72) repairs common payload damage and
then calls `json.loads` once.  `json.loads` is modelled by a strict recursive-descent parser
for the JSON grammar (objects, arrays, strings with escapes, numbers, `true`/`false`/`null`).
Modelling notes: numbers are rationals (a Python `int`/`float` pair that compares `==` equal
is identified); an object is its member list in source order (the inputs proved about have no
duplicate keys); a lone `\\uXXXX` escape becomes that code point (surrogate-pair combining is
not modelled; no input proved about contains surrogates); `NaN`/`Infinity` literals are not
modelled. -/

inductive J where
  | null
  | bool (b : Bool)
  | num (q : ℚ)
  | str (s : List Nat)
  | arr (xs : List J)
  | obj (kvs : List (List Nat × J))

/-- JSON insignificant whitespace. -/
def jIsWs (c : Nat) : Bool := c == 32 || c == 9 || c == 10 || c == 13

def jskipWs : List Nat → List Nat
  | [] => []
  | c :: r => if jIsWs c then jskipWs r else c :: r

/-- Value of one hex digit. -/
def hexVal (c : Nat) : Option Nat :=
  if 48 ≤ c ∧ c ≤ 57 then some (c - 48)
  else if 65 ≤ c ∧ c ≤ 70 then some (c - 55)
  else if 97 ≤ c ∧ c ≤ 102 then some (c - 87)
  else none

/-- Single-character JSON string escapes. -/
def escChar (e : Nat) : Option Nat :=
  if e = 34 then some 34 else if e = 92 then some 92 else if e = 47 then some 47
  else if e = 98 then some 8 else if e = 102 then some 12 else if e = 110 then some 10
  else if e = 114 then some 13 else if e = 116 then some 9 else none

/-- JSON string body after the opening quote: content and remaining input.
Unescaped control characters are rejected (strict mode). -/
def jstr : List Nat → Option (List Nat × List Nat)
  | [] => none
  | 34 :: r => some ([], r)
  | 92 :: e :: r =>
    if e = 117 then
      match r with
      | a :: b :: c :: d :: r2 =>
        match hexVal a, hexVal b, hexVal c, hexVal d with
        | some va, some vb, some vc, some vd =>
          (jstr r2).map (fun p => ((va * 4096 + vb * 256 + vc * 16 + vd) :: p.1, p.2))
        | _, _, _, _ => none
      | _ => none
    else
      match escChar e with
      | some c => (jstr r).map (fun p => (c :: p.1, p.2))
      | none => none
  | c :: r => if c < 32 then none else (jstr r).map (fun p => (c :: p.1, p.2))

def isDigitN (c : Nat) : Bool := 48 ≤ c && c ≤ 57

def natOfDigits (ds : List Nat) : Nat := ds.foldl (fun a c => a * 10 + (c - 48)) 0

/-- JSON number integer part: `0` or a nonzero digit followed by digits. -/
def jnumIntPart : List Nat → Option (Nat × List Nat)
  | 48 :: r => some (0, r)
  | c :: r =>
    if 49 ≤ c ∧ c ≤ 57 then
      some (natOfDigits (c :: r.takeWhile isDigitN), r.dropWhile isDigitN)
    else none
  | [] => none

/-- JSON number fraction part `(\.\d+)?`: value, digit count, remaining input.
A dot not followed by a digit is not consumed (the number token ends before it). -/
def jnumFrac : List Nat → Nat × Nat × List Nat
  | 46 :: r =>
    let ds := r.takeWhile isDigitN
    if ds = [] then (0, 0, 46 :: r) else (natOfDigits ds, ds.length, r.dropWhile isDigitN)
  | r => (0, 0, r)

/-- JSON number exponent part `([eE][-+]?\d+)?`. -/
def jnumExp : List Nat → Int × List Nat
  | [] => (0, [])
  | c :: r =>
    if c = 101 ∨ c = 69 then
      match r with
      | 43 :: r2 =>
        let ds := r2.takeWhile isDigitN
        if ds = [] then (0, c :: r) else ((natOfDigits ds : Int), r2.dropWhile isDigitN)
      | 45 :: r2 =>
        let ds := r2.takeWhile isDigitN
        if ds = [] then (0, c :: r) else (-(natOfDigits ds : Int), r2.dropWhile isDigitN)
      | _ =>
        let ds := r.takeWhile isDigitN
        if ds = [] then (0, c :: r) else ((natOfDigits ds : Int), r.dropWhile isDigitN)
    else (0, c :: r)

/-- Assemble a JSON number from sign, integer part, fraction and exponent.  (The integer
and fraction digits are combined in `Nat` and cast once; a zero fraction length or exponent
adds no rational operation.) -/
def qOfParts (neg : Bool) (ip fv fl : Nat) (ex : Int) : ℚ :=
  let mant : ℚ :=
    if fl = 0 then (ip : ℚ) else ((ip * 10 ^ fl + fv : Nat) : ℚ) / ((10 ^ fl : Nat) : ℚ)
  let signed : ℚ := if neg then -mant else mant
  if ex = 0 then signed
  else if 0 ≤ ex then signed * ((10 ^ ex.toNat : Nat) : ℚ)
  else signed / ((10 ^ (-ex).toNat : Nat) : ℚ)

/-- JSON number token. -/
def jnum (l : List Nat) : Option (ℚ × List Nat) :=
  let sp : Bool × List Nat := match l with | 45 :: r => (true, r) | _ => (false, l)
  match jnumIntPart sp.2 with
  | none => none
  | some (ip, r1) =>
    let fr := jnumFrac r1
    let ex := jnumExp fr.2.2
    some (qOfParts sp.1 ip fr.1 fr.2.1 ex.1, ex.2)

mutual

/-- JSON value parser (fuel-bounded recursive descent). -/
def jval : Nat → List Nat → Option (J × List Nat)
  | 0, _ => none
  | fuel + 1, l =>
    match jskipWs l with
    | [] => none
    | 123 :: r =>
      match jskipWs r with
      | 125 :: r2 => some (J.obj [], r2)
      | r2 => (jmembers fuel r2).map (fun p => (J.obj p.1, p.2))
    | 91 :: r =>
      match jskipWs r with
      | 93 :: r2 => some (J.arr [], r2)
      | r2 => (jitems fuel r2).map (fun p => (J.arr p.1, p.2))
    | 34 :: r => (jstr r).map (fun p => (J.str p.1, p.2))
    | 116 :: r =>
      match r with
      | 114 :: 117 :: 101 :: r2 => some (J.bool true, r2)
      | _ => none
    | 102 :: r =>
      match r with
      | 97 :: 108 :: 115 :: 101 :: r2 => some (J.bool false, r2)
      | _ => none
    | 110 :: r =>
      match r with
      | 117 :: 108 :: 108 :: r2 => some (J.null, r2)
      | _ => none
    | l2 => (jnum l2).map (fun p => (J.num p.1, p.2))

/-- Object members (at least one), consuming the closing brace. -/
def jmembers : Nat → List Nat → Option (List (List Nat × J) × List Nat)
  | 0, _ => none
  | fuel + 1, l =>
    match jskipWs l with
    | 34 :: r =>
      match jstr r with
      | none => none
      | some (k, r2) =>
        match jskipWs r2 with
        | 58 :: r3 =>
          match jval fuel r3 with
          | none => none
          | some (v, r4) =>
            match jskipWs r4 with
            | 44 :: r5 =>
              match jmembers fuel r5 with
              | none => none
              | some (kvs, r6) => some ((k, v) :: kvs, r6)
            | 125 :: r5 => some ([(k, v)], r5)
            | _ => none
        | _ => none
    | _ => none

/-- Array items (at least one), consuming the closing bracket. -/
def jitems : Nat → List Nat → Option (List J × List Nat)
  | 0, _ => none
  | fuel + 1, l =>
    match jval fuel l with
    | none => none
    | some (v, r) =>
      match jskipWs r with
      | 44 :: r2 =>
        match jitems fuel r2 with
        | none => none
        | some (vs, r3) => some (v :: vs, r3)
      | 93 :: r2 => some ([v], r2)
      | _ => none

end

/-- `json.loads`: a complete value with only trailing whitespace. -/
def json_loads (s : List Nat) : Option J :=
  match jval (2 * s.length + 8) s with
  | some (v, rest) => if jskipWs rest = [] then some v else none
  | none => none

/-! ## `_safe_json_loads` (backend_app/services.py lines 41-72)

Modelled from the decoded text onward (`t = s.strip()`, line 49); the UTF-8 byte decode of
lines 44-47 is outside the model.  A Python exception from the final `json.loads` is `none`. -/

/-- Lines 52-53: a single-quote wrapper becomes a double-quoted string, inner double quotes
escaped (`t[1:-1].replace converts each 34 to 92,34`). -/
def fixWrapN (t : List Nat) : List Nat :=
  if 2 ≤ t.length ∧ t.head? = some 39 ∧ t.getLast? = some 39 then
    34 :: ((t.drop 1).dropLast.flatMap (fun c => if c = 34 then [92, 34] else [c])) ++ [34]
  else t

/-- Lines 57-58: when the text starts with a brace, contains a single quote and has no double
quote before the first colon, every single quote becomes a double quote. -/
def fixQuotesN (t : List Nat) : List Nat :=
  if t.head? = some 123 ∧ 39 ∈ t ∧ ¬ 34 ∈ t.takeWhile (fun c => c != 58) then
    t.map (fun c => if c = 39 then 34 else c)
  else t

/-- Lines 62-70: `re.sub` of `\\.` with `_fix_bad_backslash`.  The two-character match keeps
`\\` + one of `" \\ / b f n r t` and doubles the backslash otherwise; the `\\uXXXX` check of
line 66 can never succeed on a two-character match, so a backslash before `uXXXX` is also
doubled; a backslash before a newline is not matched by `.` and is left alone. -/
def fixBackslashN : List Nat → List Nat
  | [] => []
  | 92 :: c :: r =>
    if c = 10 then 92 :: fixBackslashN (c :: r)
    else if c = 34 ∨ c = 92 ∨ c = 47 ∨ c = 98 ∨ c = 102 ∨ c = 110 ∨ c = 114 ∨ c = 116 then
      92 :: c :: fixBackslashN r
    else 92 :: 92 :: c :: fixBackslashN r
  | c :: r => c :: fixBackslashN r

/-- `_safe_json_loads`: strip, wrapper fix, quote fix, backslash fix, then one parse. -/
def safe_json_loads (s : List Nat) : Option J :=
  json_loads (fixBackslashN (fixQuotesN (fixWrapN (pyStripN s))))

/-! ## Sensor payload field mapping and persistence

`process_incoming_data`, sensor branch (backend_app/services.py lines 515-550).  A decoded
payload is an association list of scalar JSON values (the nested values irrelevant to the
mapped fields are not modelled); keys are Lean strings for readability. -/

/-- A decoded JSON scalar payload value. -/
inductive PV where
  | num (q : ℚ)
  | str (s : String)
  | bool (b : Bool)
  | null
deriving DecidableEq

/-- A decoded payload object. -/
abbrev Payload := List (String × PV)

def lookupPV : Payload → String → Option PV
  | [], _ => none
  | (k, v) :: r, key => if k = key then some v else lookupPV r key

/-- `payload.get(k)`: JSON `null` decodes to Python `None`, which `dict.get` also returns
for a missing key, so both are `none`. -/
def pyGet (p : Payload) (k : String) : Option PV :=
  match lookupPV p k with
  | some PV.null => none
  | r => r

/-- Python truthiness of a decoded scalar. -/
def pvTruthy : PV → Bool
  | .num q => decide (q ≠ 0)
  | .str s => decide (s ≠ "")
  | .bool b => b
  | .null => false

/-- Python `a or b` applied to `dict.get` results: the left value unless it is falsy. -/
def pyOr (a b : Option PV) : Option PV :=
  match a with
  | some v => if pvTruthy v then some v else b
  | none => b

/-- `_pick` (services.py lines 75-79): the first listed key present with a non-None value. -/
def pick (p : Payload) : List String → Option PV
  | [] => none
  | k :: ks =>
    match pyGet p k with
    | some v => some v
    | none => pick p ks

/-- Exponent tail of Python `float(str)` (subset: finite decimal literals; `inf`, `nan`
and digit-group underscores are not modelled — no input proved about uses them). -/
def pyFloatExp (neg : Bool) (ip fv fl : Nat) (r : List Nat) : Option ℚ :=
  match r with
  | [] => some (qOfParts neg ip fv fl 0)
  | c :: r2 =>
    if c = 101 ∨ c = 69 then
      let sp : Bool × List Nat :=
        match r2 with
        | 43 :: r3 => (false, r3)
        | 45 :: r3 => (true, r3)
        | _ => (false, r2)
      let ds := sp.2.takeWhile isDigitN
      if ds = [] ∨ sp.2.dropWhile isDigitN ≠ [] then none
      else
        some (qOfParts neg ip fv fl
          (if sp.1 then -(natOfDigits ds : Int) else (natOfDigits ds : Int)))
    else none

/-- Python `float(str)` on the forms `D+`, `D+.D*`, `.D+` with optional sign, exponent and
surrounding whitespace; `none` where Python raises `ValueError`. -/
def pyFloatStr (l : List Nat) : Option ℚ :=
  let t := pyStripN l
  let sp : Bool × List Nat :=
    match t with
    | 43 :: r => (false, r)
    | 45 :: r => (true, r)
    | _ => (false, t)
  let ip := sp.2.takeWhile isDigitN
  let r1 := sp.2.dropWhile isDigitN
  match r1 with
  | 46 :: r2 =>
    let fp := r2.takeWhile isDigitN
    let r3 := r2.dropWhile isDigitN
    if ip = [] ∧ fp = [] then none
    else pyFloatExp sp.1 (natOfDigits ip) (natOfDigits fp) fp.length r3
  | _ => if ip = [] then none else pyFloatExp sp.1 (natOfDigits ip) 0 0 r1

/-- Python `float(x)` on a decoded scalar (`bool` is an `int` in Python). -/
def pyToFloat : PV → Option ℚ
  | .num q => some q
  | .str s => pyFloatStr (codes s)
  | .bool b => some (if b then 1 else 0)
  | .null => none

/-- `_to_float` (services.py lines 81-84): `None` in, `None` out; coercion failure is `None`. -/
def optToFloat (x : Option PV) : Option ℚ := x.bind pyToFloat

/-- `int(q)`: truncation toward zero. -/
def truncQ (q : ℚ) : Int := Int.tdiv q.num (q.den : Int)

/-- `_to_int` (services.py lines 86-89): `int(float(x))`, failure is `None`. -/
def optToInt (x : Option PV) : Option Int := (optToFloat x).map truncQ

/-- The `fields` dict of services.py lines 530-539 before the None filter. -/
structure MappedFields where
  battery : Option Int
  temperature : Option ℚ
  humidity : Option ℚ
  light_lux : Option ℚ
  soil_temp : Option ℚ
  soil_moisture : Option ℚ
  soil_ec : Option ℚ
  comment : Option PV
deriving DecidableEq

/-- services.py lines 530-539: each persisted field is recomputed with
`payload.get(a) or payload.get(b)` (not from the `_pick` variables of lines 521-527), and
`comment` is passed through raw. -/
def mkFields (p : Payload) : MappedFields :=
  { battery := optToInt (pyOr (pyGet p "battery") (pyGet p "bat_level"))
    temperature := optToFloat (pyOr (pyGet p "temperature") (pyGet p "amb_temp"))
    humidity := optToFloat (pyOr (pyGet p "humidity") (pyGet p "amb_humi"))
    light_lux := optToFloat (pyOr (pyGet p "light_lux") (pyGet p "amb_light"))
    soil_temp := optToFloat (pyGet p "soil_temp")
    soil_moisture := optToFloat (pyOr (pyGet p "soil_moisture") (pyGet p "soil_humi"))
    soil_ec := optToFloat (pyGet p "soil_ec")
    comment := pyGet p "comment" }

/-- A value of the `fields` dict: an int (battery), a float, or the raw comment value. -/
inductive FV where
  | int (i : Int)
  | flt (q : ℚ)
  | raw (v : PV)
deriving DecidableEq

/-- The `fields` dict as an association list in source order. -/
def fieldEntries (p : Payload) : List (String × Option FV) :=
  [("battery", ((mkFields p).battery).map FV.int),
   ("temperature", ((mkFields p).temperature).map FV.flt),
   ("humidity", ((mkFields p).humidity).map FV.flt),
   ("light_lux", ((mkFields p).light_lux).map FV.flt),
   ("soil_temp", ((mkFields p).soil_temp).map FV.flt),
   ("soil_moisture", ((mkFields p).soil_moisture).map FV.flt),
   ("soil_ec", ((mkFields p).soil_ec).map FV.flt),
   ("comment", ((mkFields p).comment).map FV.raw)]

/-- `valid_fields` (services.py line 540): the entries whose value is not None. -/
def valid_fields (p : Payload) : List (String × FV) :=
  (fieldEntries p).filterMap (fun kv => kv.2.map (fun v => (kv.1, v)))

/-- `if valid_fields:` (line 542) — the single guard behind which BOTH the Influx point
write (line 545) and the Redis `latest_sensor_data` overwrite (lines 548-549) happen. -/
def persisted (p : Payload) : Bool := !(valid_fields p).isEmpty

/-! ## Producer timestamps (services.py lines 240-265 and 543) -/

/-- `payload.get("_time") or payload.get("time") or payload.get("timestamp") or None`
(line 543). -/
def tsOf (p : Payload) : Option PV :=
  pyOr (pyGet p "_time") (pyOr (pyGet p "time") (pyOr (pyGet p "timestamp") none))

/-- A parsed `datetime`: civil fields, microseconds and a UTC offset in minutes
(`none` = naive). -/
structure PyDT where
  y : Nat
  mo : Nat
  d : Nat
  hh : Nat
  mi : Nat
  ss : Nat
  us : Nat
  offMin : Option Int
deriving DecidableEq

/-- Two ASCII digits. -/
def digits2 (l : List Nat) : Option (Nat × List Nat) :=
  match l with
  | a :: b :: r =>
    if isDigitN a ∧ isDigitN b then some ((a - 48) * 10 + (b - 48), r) else none
  | _ => none

/-- Four ASCII digits. -/
def digits4 (l : List Nat) : Option (Nat × List Nat) :=
  match digits2 l with
  | some (x, r) => (digits2 r).map (fun p => (x * 100 + p.1, p.2))
  | none => none

def daysInMonth (y m : Nat) : Nat :=
  if m = 2 then (if (y % 4 = 0 ∧ y % 100 ≠ 0) ∨ y % 400 = 0 then 29 else 28)
  else if m = 4 ∨ m = 6 ∨ m = 9 ∨ m = 11 then 30 else 31

/-- UTC offset suffix `+HH:MM` / `-HH:MM`. -/
def isoOffset (l : List Nat) : Option (Int × List Nat) :=
  let core := fun (sgn : Int) (r : List Nat) =>
    match digits2 r with
    | some (oh, r1) =>
      match r1 with
      | 58 :: r2 =>
        match digits2 r2 with
        | some (om, r3) =>
          if oh ≤ 23 ∧ om ≤ 59 then some (sgn * ((oh : Int) * 60 + om), r3) else none
        | none => none
      | _ => none
    | none => none
  match l with
  | 43 :: r => core 1 r
  | 45 :: r => core (-1) r
  | _ => none

/-- Optional fraction `.d\x7b1..6\x7d` as microseconds; absent fraction is zero. -/
def isoFrac (l : List Nat) : Option (Nat × List Nat) :=
  match l with
  | 46 :: r =>
    let ds := r.takeWhile isDigitN
    if ds = [] ∨ 6 < ds.length then none
    else some (natOfDigits ds * 10 ^ (6 - ds.length), r.dropWhile isDigitN)
  | _ => some (0, l)

/-- Time of day `HH:MM[:SS[.ffffff]]`. -/
def isoTime (l : List Nat) : Option (Nat × Nat × Nat × Nat × List Nat) :=
  match digits2 l with
  | some (h, r1) =>
    match r1 with
    | 58 :: r2 =>
      match digits2 r2 with
      | some (mi, r3) =>
        match r3 with
        | 58 :: r4 =>
          match digits2 r4 with
          | some (sec, r5) =>
            match isoFrac r5 with
            | some (us, r6) =>
              if h ≤ 23 ∧ mi ≤ 59 ∧ sec ≤ 59 then some (h, mi, sec, us, r6) else none
            | none => none
          | none => none
        | _ => if h ≤ 23 ∧ mi ≤ 59 then some (h, mi, 0, 0, r3) else none
      | none => none
    | _ => none
  | none => none

/-- `datetime.fromisoformat` on the dashed extended form
`YYYY-MM-DD[(T| )HH:MM[:SS[.ffffff]][+HH:MM]]` (the subset relevant here). -/
def fromisoformat (l : List Nat) : Option PyDT :=
  match digits4 l with
  | some (y, r1) =>
    match r1 with
    | 45 :: r2 =>
      match digits2 r2 with
      | some (mo, r3) =>
        match r3 with
        | 45 :: r4 =>
          match digits2 r4 with
          | some (d, r5) =>
            if 1 ≤ y ∧ 1 ≤ mo ∧ mo ≤ 12 ∧ 1 ≤ d ∧ d ≤ daysInMonth y mo then
              match r5 with
              | [] => some ⟨y, mo, d, 0, 0, 0, 0, none⟩
              | sep :: r6 =>
                if sep = 84 ∨ sep = 32 then
                  match isoTime r6 with
                  | some (hh, mi, ss, us, r7) =>
                    match r7 with
                    | [] => some ⟨y, mo, d, hh, mi, ss, us, none⟩
                    | _ =>
                      match isoOffset r7 with
                      | some (off, []) => some ⟨y, mo, d, hh, mi, ss, us, some off⟩
                      | _ => none
                  | none => none
                else none
            else none
          | none => none
        | _ => none
      | none => none
    | _ => none
  | none => none

/-- Days from 1970-01-01 to the civil date (proleptic Gregorian). -/
def daysFromCivil (y m d : Int) : Int :=
  let y2 := if m ≤ 2 then y - 1 else y
  let era := Int.fdiv y2 400
  let yoe := y2 - era * 400
  let mp := Int.emod (m + 9) 12
  let doy := Int.fdiv (153 * mp + 2) 5 + d - 1
  let doe := yoe * 365 + Int.fdiv yoe 4 - Int.fdiv yoe 100 + doy
  era * 146097 + doe - 719468

/-- Epoch seconds of a parsed datetime; a naive one is made aware UTC first
(`ts_dt.replace(tzinfo=timezone.utc)`, services.py lines 260-261). -/
def dtEpoch (dt : PyDT) : ℚ :=
  let off : Int := match dt.offMin with | some o => o | none => 0
  ((daysFromCivil (dt.y : Int) (dt.mo : Int) (dt.d : Int) : Int) : ℚ) * 86400 +
    (dt.hh : ℚ) * 3600 + (dt.mi : ℚ) * 60 + (dt.ss : ℚ) + (dt.us : ℚ) / 1000000 -
    ((off : ℚ) * 60)

/-- Lines 257-258: a trailing `Z` becomes `+00:00` before `fromisoformat`. -/
def zfix (t : List Nat) : List Nat :=
  if t.getLast? = some 90 then t.dropLast ++ codes "+00:00" else t

/-- `datetime.fromtimestamp(_, tz=utc)` raises `OverflowError`/`OSError` outside years
1..9999; the representable instants in epoch seconds (the sub-microsecond boundary
rounding of the extreme endpoint is not modelled). -/
def dtRange (q : ℚ) : Bool := decide (-62135596800 ≤ q ∧ q < 253402300800)

/-- `ts / 1000.0 if ts > 1e12 else ts` (lines 244-248 and 251-255). -/
def effEpoch (q : ℚ) : ℚ := if 1000000000000 < q then q / 1000 else q

/-- Python `str.isdigit` (ASCII). -/
def isDigitsN (l : List Nat) : Bool := !l.isEmpty && l.all isDigitN

/-- The try-block of services.py lines 242-263: the producer timestamp parsed from the `ts`
argument, `none` when `ts_dt` stays unset or the block raises (caught at line 264).
Numeric (and bool, an `int` in Python): epoch seconds, or milliseconds above 1e12, failing
outside the `fromtimestamp` range.  String: stripped; pure digits as numeric epoch;
otherwise trailing `Z` rewritten and `fromisoformat` applied. -/
def parseProducerTs : PV → Option ℚ
  | .num q => if dtRange (effEpoch q) then some (effEpoch q) else none
  | .bool b =>
    let q : ℚ := if b then 1 else 0
    if dtRange (effEpoch q) then some (effEpoch q) else none
  | .str s =>
    let t := pyStripN (codes s)
    if isDigitsN t then
      let q : ℚ := (natOfDigits t : ℚ)
      if dtRange (effEpoch q) then some (effEpoch q) else none
    else
      match fromisoformat (zfix t) with
      | some dt => some (dtEpoch dt)
      | none => none
  | .null => none

/-- The timestamp carried by the written point (services.py lines 241-265): the parsed
producer timestamp when `ts` is present, truthy and parseable, otherwise the ingestion-time
`now` (the point is then written with server time); never an exception. -/
def resolveWriteTime (ts : Option PV) (now : ℚ) : ℚ :=
  match ts with
  | none => now
  | some v =>
    if pvTruthy v then
      match parseProducerTs v with
      | some t => t
      | none => now
    else now

/-! ## Image `.origin` sibling file (services.py lines 444-491) -/

/-- One base16 digit (uppercase). -/
def hexDig (n : Nat) : Nat := if n < 10 then 48 + n else 55 + n

/-- `base64.b16encode`: two uppercase-hex characters per byte. -/
def b16encode (bs : List Nat) : List Nat :=
  bs.flatMap (fun b => [hexDig (b / 16), hexDig (b % 16)])

/-- services.py lines 476-491: the text written to the sibling `.origin` file is the base16
encoding of the enhanced JPEG bytes produced by the PIL pipeline (lines 452-473) — the
enhanced bytes are a parameter here because the PIL image operations are outside the model. -/
def originFileContent (enhancedBytes : List Nat) : List Nat := b16encode enhancedBytes

/-! ## Influx write retry (services.py lines 269-289) -/

/-- Observable I/O events of one `write_sensor_data_to_influxdb` call; `gen` numbers the
client/write-api generation in use. -/
inductive WEvent (α : Type) where
  | tryWrite (gen : Nat) (p : α)
  | reconnect (gen : Nat)
  | dropLogged (p : α)
deriving DecidableEq

/-- The try/except of services.py lines 269-289 with the write I/O abstracted by `fails`
(whether a write through generation `g` raises): attempt the write; on failure close the
client, build a fresh client and write api (generation `g+1`) and retry the same point; on a
second failure log and drop.  Both excepts are caught, so the call always returns; the
second component is the generation left behind. -/
def influx_write_with_retry {α : Type} (gen : Nat) (fails : Nat → Bool) (p : α) :
    List (WEvent α) × Nat :=
  if fails gen then
    if fails (gen + 1) then
      ([.tryWrite gen p, .reconnect (gen + 1), .tryWrite (gen + 1) p, .dropLogged p], gen + 1)
    else ([.tryWrite gen p, .reconnect (gen + 1), .tryWrite (gen + 1) p], gen + 1)
  else ([.tryWrite gen p], gen)

/-- The points of the write attempts in a trace, in order. -/
def pointsTried {α : Type} (evs : List (WEvent α)) : List α :=
  evs.filterMap (fun e => match e with | .tryWrite _ p => some p | _ => none)

/-- Number of write attempts in a trace. -/
def countTryWrites {α : Type} (evs : List (WEvent α)) : Nat := (pointsTried evs).length

/-- Number of reconnects in a trace. -/
def countReconnects {α : Type} (evs : List (WEvent α)) : Nat :=
  (evs.filterMap (fun e => match e with | .reconnect g => some g | _ => none)).length

/-- Whether the point was dropped (second failure logged). -/
def droppedIn {α : Type} (evs : List (WEvent α)) : Bool :=
  evs.any (fun e => match e with | .dropLogged _ => true | _ => false)

end GreenEye

namespace GreenEye

/-! ## Theorems: auto-control claims -/

lemma legacy_cycle_mid (v : ℚ) (st : Option String) (h1 : 300 ≤ v) (h2 : v ≤ 700) :
    legacy_pump_cycle (some v) st = ([], st) := by
  have hA : ¬(v < 300 ∧ st ≠ some "on") := fun h => absurd h.1 (not_lt.2 h1)
  have hB : ¬(700 < v ∧ st ≠ some "off") := fun h => absurd h.1 (not_lt.2 h2)
  simp only [legacy_pump_cycle, if_neg hA, if_neg hB]

lemma legacy_cycle_low_idle (v : ℚ) (h : v < 300) :
    legacy_pump_cycle (some v) (some "on") = ([], some "on") := by
  have hA : ¬(v < 300 ∧ (some "on" : Option String) ≠ some "on") := by simp
  have hB : ¬(700 < v ∧ (some "on" : Option String) ≠ some "off") :=
    fun hc => absurd hc.1 (by linarith)
  simp only [legacy_pump_cycle, if_neg hA, if_neg hB]

lemma legacy_cycle_low_fire (v : ℚ) (st : Option String) (h : v < 300) (hst : st ≠ some "on") :
    legacy_pump_cycle (some v) st = ([pumpOnCmd], some "on") := by
  have hc : v < 300 ∧ st ≠ some "on" := ⟨h, hst⟩
  simp only [legacy_pump_cycle, if_pos hc]

lemma legacy_cycle_high_fire (v : ℚ) (h : 700 < v) :
    legacy_pump_cycle (some v) (some "on") = ([pumpOffCmd], some "off") := by
  have hA : ¬(v < 300 ∧ (some "on" : Option String) ≠ some "on") := by simp
  have hB : (700 < v ∧ (some "on" : Option String) ≠ some "off") := ⟨h, by simp⟩
  simp only [legacy_pump_cycle, if_neg hA, if_pos hB]

lemma legacy_cycle_high_idle (v : ℚ) (h : 700 < v) :
    legacy_pump_cycle (some v) (some "off") = ([], some "off") := by
  have hA : ¬(v < 300 ∧ (some "off" : Option String) ≠ some "on") :=
    fun hc => absurd hc.1 (by linarith)
  have hB : ¬(700 < v ∧ (some "off" : Option String) ≠ some "off") := by simp
  simp only [legacy_pump_cycle, if_neg hA, if_neg hB]

lemma legacy_run_low_idle (ls : List ℚ) (rest : List (Option ℚ))
    (h : ∀ x ∈ ls, x < 300) :
    legacy_pump_run (ls.map some ++ rest) (some "on") =
      List.replicate ls.length [] ++ legacy_pump_run rest (some "on") := by
  induction ls with
  | nil => simp
  | cons x xs ih =>
    have hx : x < 300 := h x (by simp)
    have ih2 := ih (fun y hy => h y (by simp [hy]))
    simp only [List.map_cons, List.cons_append, legacy_pump_run,
      legacy_cycle_low_idle x hx, List.length_cons, List.replicate_succ]
    exact congrArg (List.cons []) ih2

lemma legacy_run_mid (ms : List ℚ) (rest : List (Option ℚ)) (st : Option String)
    (h : ∀ x ∈ ms, 300 ≤ x ∧ x ≤ 700) :
    legacy_pump_run (ms.map some ++ rest) st =
      List.replicate ms.length [] ++ legacy_pump_run rest st := by
  induction ms with
  | nil => simp
  | cons x xs ih =>
    have hx := h x (by simp)
    have ih2 := ih (fun y hy => h y (by simp [hy]))
    simp only [List.map_cons, List.cons_append, legacy_pump_run,
      legacy_cycle_mid x st hx.1 hx.2, List.length_cons, List.replicate_succ]
    exact congrArg (List.cons []) ih2

lemma legacy_run_high_idle (hsv : List ℚ) (h : ∀ x ∈ hsv, 700 < x) :
    legacy_pump_run (hsv.map some) (some "off") = List.replicate hsv.length [] := by
  induction hsv with
  | nil => simp [legacy_pump_run]
  | cons x xs ih =>
    have hx : 700 < x := h x (by simp)
    have ih2 := ih (fun y hy => h y (by simp [hy]))
    simp only [List.map_cons, legacy_pump_run, legacy_cycle_high_idle x hx,
      List.length_cons, List.replicate_succ]
    exact congrArg (List.cons []) ih2

/-- C1: over any sequence of cycles of the (legacy) auto-control evaluator whose cached
soil-moisture readings first drop below 300, stay in the dead band 300..700 for any number
of cycles, then rise above 700, exactly two irrigation commands are emitted: one "on" at the
first low cycle and one "off" at the first high cycle — every other cycle emits nothing,
because each emitted command immediately overwrites the cached pump state. -/
theorem auto_control_hysteresis (a b : ℚ) (ls ms hsv : List ℚ)
    (ha : a < 300) (hls : ∀ x ∈ ls, x < 300)
    (hms : ∀ x ∈ ms, 300 ≤ x ∧ x ≤ 700)
    (hb : 700 < b) (hhs : ∀ x ∈ hsv, 700 < x) :
    legacy_pump_run ((a :: (ls ++ ms ++ b :: hsv)).map some) (some "off") =
      ([pumpOnCmd] :: List.replicate (ls.length + ms.length) []) ++
        ([pumpOffCmd] :: List.replicate hsv.length []) := by
  have h0 : legacy_pump_cycle (some a) (some "off") = ([pumpOnCmd], some "on") :=
    legacy_cycle_low_fire a (some "off") ha (by simp)
  simp only [List.map_cons, List.map_append, legacy_pump_run, h0]
  rw [List.append_assoc, legacy_run_low_idle ls _ hls]
  rw [legacy_run_mid ms _ (some "on") hms]
  have hbf : legacy_pump_cycle (some b) (some "on") = ([pumpOffCmd], some "off") :=
    legacy_cycle_high_fire b hb
  simp only [List.map_cons, legacy_pump_run, hbf]
  rw [legacy_run_high_idle hsv hhs]
  rw [List.replicate_add]
  simp only [List.cons_append, List.append_assoc]

/-- Witness for C1: the concrete reading sequence 250, 100, 500, 800, 750 starting from
cached pump state "off" emits exactly [on] at the first cycle and [off] at the fourth. -/
theorem auto_control_hysteresis_witness :
    legacy_pump_run (((250 : ℚ) :: ([100] ++ [500] ++ (800 : ℚ) :: [750])).map some)
        (some "off") =
      ([pumpOnCmd] :: List.replicate ([(100 : ℚ)].length + [(500 : ℚ)].length) []) ++
        ([pumpOffCmd] :: List.replicate [(750 : ℚ)].length []) :=
  auto_control_hysteresis 250 800 [100] [500] [750] (by norm_num)
    (by intro x hx; simp at hx; simp [hx]; norm_num)
    (by intro x hx; simp at hx; simp [hx]; norm_num)
    (by norm_num)
    (by intro x hx; simp at hx; simp [hx]; norm_num)

/-- C2: on a single evaluation cycle of `check_and_apply_auto_control`, if a cached actuator
state already equals the state implied by the current cached reading, that actuator's block
emits zero commands. -/
theorem auto_control_no_duplicate_commands (m lux : Option ℚ) (hour : Nat)
    (pump : Option String) (led : Option Int) :
    (∀ s, impliedPumpState m = some s → pump = some s → pumpBranch m pump = []) ∧
    (∀ n, impliedLedState lux hour = some n → led = some n → lightBranch lux hour led = []) := by
  constructor
  · intro s hs hp
    match m with
    | none => simp [pumpBranch]
    | some v =>
      by_cases h1 : v < 300
      · have hs1 : "on" = s := by simpa [impliedPumpState, h1] using hs
        subst hs1; subst hp
        have hA : ¬(v < 300 ∧ (some "on" : Option String) ≠ some "on") := by simp
        have hB : ¬(700 < v ∧ (some "on" : Option String) ≠ some "off") :=
          fun hc => absurd hc.1 (by linarith)
        simp only [pumpBranch, if_neg hA, if_neg hB]
      · by_cases h2 : 700 < v
        · have hs1 : "off" = s := by simpa [impliedPumpState, h1, h2] using hs
          subst hs1; subst hp
          have hA : ¬(v < 300 ∧ (some "off" : Option String) ≠ some "on") :=
            fun hc => absurd hc.1 h1
          have hB : ¬(700 < v ∧ (some "off" : Option String) ≠ some "off") := by simp
          simp only [pumpBranch, if_neg hA, if_neg hB]
        · simp [impliedPumpState, h1, h2] at hs
  · intro n hn hl
    match lux with
    | none =>
      have hn0 : (0 : Int) = n := by simpa [impliedLedState] using hn
      subst hn0; subst hl
      simp [lightBranch]
    | some v =>
      by_cases hw : 7 ≤ hour ∧ hour ≤ 20
      · by_cases h1 : v < 500
        · have hn1 : (1 : Int) = n := by simpa [impliedLedState, hw, h1] using hn
          subst hn1; subst hl
          have hA : ¬(v < 500 ∧ (some 1 : Option Int) ≠ some 1) := by simp
          have hB : ¬(800 < v ∧ (some 1 : Option Int) ≠ some 0) :=
            fun hc => absurd hc.1 (by linarith)
          simp only [lightBranch, if_pos hw, if_neg hA, if_neg hB]
        · by_cases h2 : 800 < v
          · have hn1 : (0 : Int) = n := by simpa [impliedLedState, hw, h1, h2] using hn
            subst hn1; subst hl
            have hA : ¬(v < 500 ∧ (some 0 : Option Int) ≠ some 1) :=
              fun hc => absurd hc.1 h1
            have hB : ¬(800 < v ∧ (some 0 : Option Int) ≠ some 0) := by simp
            simp only [lightBranch, if_pos hw, if_neg hA, if_neg hB]
          · simp [impliedLedState, hw, h1, h2] at hn
      · have hn0 : (0 : Int) = n := by simpa [impliedLedState, hw] using hn
        subst hn0; subst hl
        simp [lightBranch, hw]

/-- Witness for C2: soil moisture 250 with pump already "on", lux 400 at hour 10 with
flash already 1 — both blocks emit nothing. -/
theorem auto_control_no_duplicate_commands_witness :
    pumpBranch (some 250) (some "on") = [] ∧ lightBranch (some 400) 10 (some 1) = [] := by
  have h := auto_control_no_duplicate_commands (some 250) (some 400) 10 (some "on") (some 1)
  exact ⟨h.1 "on" (by norm_num [impliedPumpState]) rfl,
         h.2 1 (by norm_num [impliedLedState]) rfl⟩

/-- C10: whenever the cached lux reading is absent or the hour is outside 7..20, and the
cached `flash_en` state is a nonzero value, the light block publishes the night-off payload
`{"flash_en": 0, "flash_nt": 1, "flash_level": 180}` — in particular a missing lux
measurement alone forces the light off even during active hours. -/
theorem auto_control_missing_lux_forces_light_off (lux : Option ℚ) (hour : Nat) (n : Int)
    (hcond : lux = none ∨ ¬(7 ≤ hour ∧ hour ≤ 20)) (hn : n ≠ 0) :
    lightBranch lux hour (some n) = [ledNightOffP] := by
  have hne : (some n : Option Int) ≠ some 0 := by simpa using hn
  rcases hcond with h | h
  · subst h; simp only [lightBranch, if_pos hne]
  · match lux with
    | none => simp only [lightBranch, if_pos hne]
    | some v => simp only [lightBranch, if_neg h, if_pos hne]

/-- Witness for C10: lux absent at hour 10 (active hours) with cached flash_en = 1 emits the
night-off payload. -/
theorem auto_control_missing_lux_forces_light_off_witness :
    lightBranch none 10 (some 1) = [ledNightOffP] :=
  auto_control_missing_lux_forces_light_off none 10 1 (Or.inl rfl) (by decide)

/-! ## Theorems: device identity resolution -/

lemma isLowerHexN_ranges {c : Nat} (h : isLowerHexN c = true) :
    (48 ≤ c ∧ c ≤ 57) ∨ (97 ≤ c ∧ c ≤ 102) := by
  simp only [isLowerHexN, Bool.or_eq_true, Bool.and_eq_true, decide_eq_true_eq] at h
  exact h

lemma lowerN_of_lowerHex {c : Nat} (h : isLowerHexN c = true) : lowerN c = c := by
  rcases isLowerHexN_ranges h with h1 | h1 <;> · unfold lowerN; split <;> omega

lemma upperN_lowerHex_isUpper {c : Nat} (h : isLowerHexN c = true) :
    isUpperHexN (upperN c) = true := by
  rcases isLowerHexN_ranges h with h1 | h1 <;>
  · unfold upperN isUpperHexN
    split <;> simp <;> omega

lemma lowerN_upperN_of_lowerHex {c : Nat} (h : isLowerHexN c = true) :
    lowerN (upperN c) = c := by
  rcases isLowerHexN_ranges h with h1 | h1 <;>
  · unfold upperN lowerN
    split <;> (split <;> omega)

lemma lowerHex_ne_sep {c : Nat} (h : isLowerHexN c = true) : c ≠ 45 ∧ c ≠ 95 := by
  rcases isLowerHexN_ranges h with h1 | h1 <;> omega

lemma lowerHex_not_ws {c : Nat} (h : isLowerHexN c = true) : isPyWs c = false := by
  rcases isLowerHexN_ranges h with h1 | h1 <;>
  · unfold isPyWs
    simp only [Bool.or_eq_false_iff, beq_eq_false_iff_ne]
    omega

lemma upperN_ne_45 {c : Nat} (h : c ≠ 45) : upperN c ≠ 45 := by
  unfold upperN; split <;> omega

lemma dropWhile_of_all_neg {p : Nat → Bool} {l : List Nat} (h : ∀ x ∈ l, p x = false) :
    l.dropWhile p = l := by
  cases l with
  | nil => rfl
  | cons x xs => simp [List.dropWhile_cons, h x (by simp)]

lemma pyStripN_of_all_not_ws {l : List Nat} (h : ∀ x ∈ l, isPyWs x = false) :
    pyStripN l = l := by
  unfold pyStripN
  rw [dropWhile_of_all_neg h, dropWhile_of_all_neg (by simpa using h), List.reverse_reverse]

lemma takeWhile_append_stop {p : Nat → Bool} (l1 : List Nat) (c : Nat) (l2 : List Nat)
    (h1 : ∀ x ∈ l1, p x = true) (hc : p c = false) :
    (l1 ++ c :: l2).takeWhile p = l1 := by
  induction l1 with
  | nil => simp [List.takeWhile_cons, hc]
  | cons x xs ih =>
    simp only [List.cons_append, List.takeWhile_cons, h1 x (by simp)]
    simp [ih (fun y hy => h1 y (by simp [hy]))]

lemma normalize_of_no_sep {l : List Nat} (h : ∀ c ∈ l, c ≠ 45 ∧ c ≠ 95) :
    normalize_mac l = l.map upperN := by
  unfold normalize_mac
  exact List.map_congr_left (fun c hc => by rw [if_neg (h c hc).2])

lemma lastSeg_of_no_45 {l : List Nat} (h : ∀ c ∈ l, c ≠ 45) : lastSeg l = l := by
  unfold lastSeg
  have hno45 : ∀ c ∈ l.reverse, (c != 45) = true := by
    intro c hc
    simpa using h c (List.mem_reverse.1 hc)
  rw [List.takeWhile_eq_self_iff.2 hno45, List.reverse_reverse]

lemma map_lowerN_upperN {d : List Nat} (hhex : ∀ c ∈ d, isLowerHexN c = true) :
    (d.map upperN).map lowerN = d := by
  rw [List.map_map]
  have h : ∀ c ∈ d, (lowerN ∘ upperN) c = id c :=
    fun c hc => lowerN_upperN_of_lowerHex (hhex c hc)
  rw [List.map_congr_left h, List.map_id]

lemma derive_of_upper_hex_tail {p d : List Nat} (hd : isCanonId d)
    (hp : ∀ c ∈ p, c ≠ 45 ∧ c ≠ 95)
    (htail : takeLast4 ((p.map upperN).filter isUpperHexN) = d.map upperN) :
    derive_device_id_from_mac p = d := by
  obtain ⟨hlen, hhexall⟩ := hd
  have hhex : ∀ c ∈ d, isLowerHexN c = true := by simpa [List.all_eq_true] using hhexall
  have hpne : p ≠ [] := by
    intro hnil
    rw [hnil] at htail
    have h0 : (takeLast4 (([] : List Nat).map upperN |>.filter isUpperHexN)).length = 0 := rfl
    rw [htail] at h0
    simp [hlen] at h0
  unfold derive_device_id_from_mac
  rw [if_neg hpne, normalize_of_no_sep hp]
  have hseg : lastSeg (p.map upperN) = p.map upperN := by
    apply lastSeg_of_no_45
    intro c hc
    obtain ⟨a, ha, rfl⟩ := List.mem_map.1 hc
    exact upperN_ne_45 (hp a ha).1
  rw [hseg]
  have hne : (p.map upperN).filter isUpperHexN ≠ [] := by
    intro hnil
    rw [hnil] at htail
    have h0 : (takeLast4 ([] : List Nat)).length = 0 := rfl
    rw [htail] at h0
    simp [hlen] at h0
  unfold hexBase
  rw [if_neg hne, htail, map_lowerN_upperN hhex]

lemma filter_upper_hex {d : List Nat} (hhex : ∀ c ∈ d, isLowerHexN c = true) :
    (d.map upperN).filter isUpperHexN = d.map upperN := by
  apply List.filter_eq_self.2
  intro c hc
  obtain ⟨a, ha, rfl⟩ := List.mem_map.1 hc
  exact upperN_lowerHex_isUpper (hhex a ha)

lemma takeLast4_of_len4 {l : List Nat} (h : l.length = 4) : takeLast4 l = l := by
  unfold takeLast4
  simp [h]

lemma derive_canonical {d : List Nat} (hd : isCanonId d) :
    derive_device_id_from_mac d = d := by
  obtain ⟨hlen, hhexall⟩ := hd
  have hhex : ∀ c ∈ d, isLowerHexN c = true := by simpa [List.all_eq_true] using hhexall
  apply derive_of_upper_hex_tail ⟨hlen, hhexall⟩
  · exact fun c hc => lowerHex_ne_sep (hhex c hc)
  · rw [filter_upper_hex hhex]
    exact takeLast4_of_len4 (by simpa using hlen)

lemma derive_gesd {d : List Nat} (hd : isCanonId d) :
    derive_device_id_from_mac (codes "ge-sd-" ++ d) = d := by
  obtain ⟨hlen, hhexall⟩ := hd
  have hhex : ∀ c ∈ d, isLowerHexN c = true := by simpa [List.all_eq_true] using hhexall
  have hne : codes "ge-sd-" ++ d ≠ [] := by simp [codes]
  unfold derive_device_id_from_mac
  rw [if_neg hne]
  have hnorm : normalize_mac (codes "ge-sd-" ++ d) = codes "GE-SD-" ++ d.map upperN := by
    unfold normalize_mac
    rw [List.map_append]
    have h1 : (codes "ge-sd-").map (fun c => upperN (if c = 95 then 45 else c)) =
        codes "GE-SD-" := by decide
    have h2 : d.map (fun c => upperN (if c = 95 then 45 else c)) = d.map upperN :=
      List.map_congr_left (fun c hc => by rw [if_neg (lowerHex_ne_sep (hhex c hc)).2])
    rw [h1, h2]
  rw [hnorm]
  have hseg : lastSeg (codes "GE-SD-" ++ d.map upperN) = d.map upperN := by
    unfold lastSeg
    rw [List.reverse_append]
    have hGE : (codes "GE-SD-").reverse = 45 :: codes "DS-EG" := by decide
    rw [hGE]
    have hstop : ((d.map upperN).reverse ++ 45 :: codes "DS-EG").takeWhile
        (fun c => c != 45) = (d.map upperN).reverse := by
      apply takeWhile_append_stop
      · intro x hx
        obtain ⟨a, ha, rfl⟩ := List.mem_map.1 (List.mem_reverse.1 hx)
        simpa using upperN_ne_45 (lowerHex_ne_sep (hhex a ha)).1
      · decide
    rw [hstop, List.reverse_reverse]
  rw [hseg]
  unfold hexBase
  rw [filter_upper_hex hhex]
  have hne2 : d.map upperN ≠ [] := by
    intro hnil
    have h0 := congrArg List.length hnil
    simp [hlen] at h0
  rw [if_neg hne2, takeLast4_of_len4 (by simpa using hlen), map_lowerN_upperN hhex]

lemma resolve_canonical {d : List Nat} (hd : isCanonId d) : resolve_topic_id d = d := by
  obtain ⟨hlen, hhexall⟩ := hd
  have hhex : ∀ c ∈ d, isLowerHexN c = true := by simpa [List.all_eq_true] using hhexall
  unfold resolve_topic_id
  rw [pyStripN_of_all_not_ws (fun c hc => lowerHex_not_ws (hhex c hc))]
  have hlow : d.map lowerN = d :=
    (List.map_congr_left (fun c hc => lowerN_of_lowerHex (hhex c hc))).trans (List.map_id d)
  rw [hlow, if_pos ⟨hlen, hhexall⟩]

lemma resolve_gesd {d : List Nat} (hd : isCanonId d) :
    resolve_topic_id (codes "ge-sd-" ++ d) = d := by
  obtain ⟨hlen, hhexall⟩ := hd
  have hhex : ∀ c ∈ d, isLowerHexN c = true := by simpa [List.all_eq_true] using hhexall
  unfold resolve_topic_id
  have hws : ∀ x ∈ codes "ge-sd-" ++ d, isPyWs x = false := by
    intro x hx
    rcases List.mem_append.1 hx with hx | hx
    · fin_cases hx <;> decide
    · exact lowerHex_not_ws (hhex x hx)
  rw [pyStripN_of_all_not_ws hws, List.map_append]
  have hpre : (codes "ge-sd-").map lowerN = codes "ge-sd-" := by decide
  have hlow : d.map lowerN = d :=
    (List.map_congr_left (fun c hc => lowerN_of_lowerHex (hhex c hc))).trans (List.map_id d)
  rw [hpre, hlow]
  have hlen10 : (codes "ge-sd-" ++ d).length = 10 := by simp [codes, hlen]
  have hcond1 : ¬((codes "ge-sd-" ++ d).length = 4 ∧
      (codes "ge-sd-" ++ d).all isLowerHexN = true) := by
    intro hc
    rw [hlen10] at hc
    omega
  rw [if_neg hcond1]
  have h6 : (6 : Nat) = (codes "ge-sd-").length := by decide
  have htake : (codes "ge-sd-" ++ d).take 6 = codes "ge-sd-" := by
    rw [h6, List.take_left]
  have hdrop : (codes "ge-sd-" ++ d).drop 6 = d := by
    rw [h6, List.drop_left]
  rw [if_pos ⟨hlen10, htake, by rw [hdrop]; exact hhexall⟩, hdrop]

/-- Counterexample to C3 as stated: the hyphen-separated raw MAC `AA-BB-CC-DD-6C-18` has hex
digits ending in the canonical ID `6c18`, yet `_derive_device_id_from_mac` resolves it to
`18` — the last hyphen segment's hex tail — which is not the 4-character canonical ID. -/
theorem device_id_resolution_counterexample :
    takeLast4 (((codes "AA-BB-CC-DD-6C-18").map upperN).filter isUpperHexN) =
      (codes "6c18").map upperN ∧
    derive_device_id_from_mac (codes "AA-BB-CC-DD-6C-18") = codes "18" ∧
    (codes "18" == codes "6c18") = false ∧
    ((derive_device_id_from_mac (codes "AA-BB-CC-DD-6C-18")).length == 4) = false := by decide

/-- C3 (amended): the topic resolver and the MAC deriver are idempotent on canonical
4-char lowercase-hex IDs `d`; both resolve the prefixed device code `ge-sd-` ++ `d` to `d`;
and the deriver maps any hyphen-free and underscore-free raw MAC whose uppercased hex digits
end in `d` (e.g. a colon-separated MAC) to `d`.  (Hyphen-separated raw MACs are instead
reduced to the hex tail of their last hyphen segment.) -/
theorem device_id_resolution_amended (d p : List Nat) (hd : isCanonId d)
    (hp : ∀ c ∈ p, c ≠ 45 ∧ c ≠ 95)
    (htail : takeLast4 ((p.map upperN).filter isUpperHexN) = d.map upperN) :
    resolve_topic_id d = d ∧
    derive_device_id_from_mac d = d ∧
    resolve_topic_id (codes "ge-sd-" ++ d) = d ∧
    derive_device_id_from_mac (codes "ge-sd-" ++ d) = d ∧
    derive_device_id_from_mac p = d :=
  ⟨resolve_canonical hd, derive_canonical hd, resolve_gesd hd, derive_gesd hd,
    derive_of_upper_hex_tail hd hp htail⟩

/-- C4 (code bug at the backslash repair): `_safe_json_loads` never attempts a strict parse
of its input; its repairs do fix a single-quoted object and a stray backslash (first four
conjuncts: each malformed sample decodes to the same mapping as its well-formed equivalent),
but - against the documented repair list and the comment at services.py line 65, which both
keep a backslash followed by a 4-hex-digit unicode escape intact - the two-character
`re.sub` match doubles that backslash too.  Hence a well-formed payload holding the escape
`\u0041`, which strict `json.loads` decodes to the one-character string `A`, is instead
decoded by `_safe_json_loads` to the six literal characters of the escape
(last three conjuncts). -/
theorem safe_json_loads_unicode_escape_bug :
    json_loads (codes "\x7b'a': 1\x7d") = none ∧
    safe_json_loads (codes "\x7b'a': 1\x7d") = json_loads (codes "\x7b\"a\": 1\x7d") ∧
    (json_loads (codes "\x7b\"a\": 1\x7d")).isSome = true ∧
    safe_json_loads (codes "\x7b\"p\": \"a\\pb\"\x7d") =
      some (J.obj [(codes "p", J.str [97, 92, 112, 98])]) ∧
    json_loads (codes "\x7b\"k\": \"\\u0041\"\x7d") =
      some (J.obj [(codes "k", J.str [65])]) ∧
    safe_json_loads (codes "\x7b\"k\": \"\\u0041\"\x7d") =
      some (J.obj [(codes "k", J.str (codes "\\u0041"))]) ∧
    (codes "\\u0041" == [65]) = false :=
  ⟨rfl, rfl, rfl, rfl, rfl, rfl, by decide⟩

/-- C5 (code bug): the alias lists actually persisted are narrower than the `_pick` calls
and skip falsy values.  `_pick` (lines 521-527) accepts the `temp` alias and keeps a zero
battery, but those results are discarded: the persisted `fields` dict (lines 530-539)
recomputes each field as `payload.get(a) or payload.get(b)`, so a payload carrying only
`temp` maps to no temperature (and, having no other field, is discarded entirely), and a
zero `battery` value falls through to nothing.  The coercion side of the claim does hold:
an uncoercible string is treated as absent and a numeric string is coerced (last two
conjuncts). -/
theorem field_mapper_alias_bug :
    pick [("temp", PV.num 24)] ["temperature", "amb_temp", "temp"] = some (PV.num 24) ∧
    (mkFields [("temp", PV.num 24)]).temperature = none ∧
    persisted [("temp", PV.num 24)] = false ∧
    pick [("battery", PV.num 0)] ["battery", "bat_level", "bat"] = some (PV.num 0) ∧
    (mkFields [("battery", PV.num 0)]).battery = none ∧
    optToFloat (some (PV.str "abc")) = none ∧
    optToInt (some (PV.str "40")) = some 40 := by decide

/-- Counterexample to C6 as stated: a payload whose only entry is a `comment` string has
zero mappable sensor fields, yet it is persisted — the `fields` dict also carries the raw
`comment` passthrough (line 538), which survives the None filter. -/
theorem persistence_comment_counterexample :
    persisted [("comment", PV.str "hi")] = true ∧
    (mkFields [("comment", PV.str "hi")]).battery = none ∧
    (mkFields [("comment", PV.str "hi")]).temperature = none ∧
    (mkFields [("comment", PV.str "hi")]).humidity = none ∧
    (mkFields [("comment", PV.str "hi")]).light_lux = none ∧
    (mkFields [("comment", PV.str "hi")]).soil_temp = none ∧
    (mkFields [("comment", PV.str "hi")]).soil_moisture = none ∧
    (mkFields [("comment", PV.str "hi")]).soil_ec = none := by decide

/-- C6 (amended): a sensor reading is persisted — one time-series point written and the
latest-value cache entry overwritten, both behind the same `if valid_fields:` guard — iff
at least one of the seven sensor fields coerced to a non-null value or the payload carries
a non-null `comment` value. -/
theorem persisted_iff_some_field (p : Payload) :
    persisted p = true ↔
      ((mkFields p).battery.isSome = true ∨ (mkFields p).temperature.isSome = true ∨
       (mkFields p).humidity.isSome = true ∨ (mkFields p).light_lux.isSome = true ∨
       (mkFields p).soil_temp.isSome = true ∨ (mkFields p).soil_moisture.isSome = true ∨
       (mkFields p).soil_ec.isSome = true ∨ (mkFields p).comment.isSome = true) := by
  have h1 : persisted p = true ↔ ¬ valid_fields p = [] := by
    simp [persisted, List.isEmpty_iff]
  rw [h1, valid_fields, List.filterMap_eq_nil_iff]
  simp only [fieldEntries, List.forall_mem_cons, List.forall_mem_nil, and_true,
    Option.map_eq_none', Option.isSome_iff_ne_none]
  tauto

/-- Counterexample to C7 as stated: the numeric epoch 0 under `_time` is a well-formed
epoch-seconds timestamp, but the falsy-skipping `or`-chain (line 543) and the `if ts:`
guard treat it as absent, so the written point carries ingestion time (777 here), not
epoch 0. -/
theorem timestamp_zero_epoch_counterexample :
    tsOf [("_time", PV.num 0)] = none ∧
    resolveWriteTime (tsOf [("_time", PV.num 0)]) 777 = 777 ∧
    ((777 : ℚ) == 0) = false := by decide

/-- C7 (amended): producer-timestamp handling of the sensor sink, which never raises (the
resolver is total and every parse failure falls back): a nonzero numeric epoch inside the
`fromtimestamp` range is attached (seconds up to 1e12, milliseconds above — `effEpoch`);
an ISO string with trailing `Z` parses exactly as the same string with `+00:00`; a parsed
naive datetime is attached as UTC; an unparseable value, or an absent one, falls back to
ingestion-time `now`.  (Zero/empty timestamps and out-of-range epochs also fall back —
the corrections the counterexample forces.) -/
theorem producer_timestamp_handling (q now : ℚ) (t : List Nat) (v : PV) :
    (q ≠ 0 → dtRange (effEpoch q) = true →
      resolveWriteTime (some (PV.num q)) now = effEpoch q) ∧
    fromisoformat (zfix (t ++ [90])) = fromisoformat (zfix (t ++ codes "+00:00")) ∧
    (∀ dt : PyDT, dt.offMin = none → dtEpoch dt = dtEpoch { dt with offMin := some 0 }) ∧
    (parseProducerTs v = none → resolveWriteTime (some v) now = now) ∧
    resolveWriteTime none now = now := by
  refine ⟨?_, ?_, ?_, ?_, rfl⟩
  · intro hq hr
    have ht : pvTruthy (PV.num q) = true := by simp [pvTruthy, hq]
    simp [resolveWriteTime, parseProducerTs, ht, hr]
  · have h1 : (t ++ [90]).getLast? = some 90 := List.getLast?_concat t
    have e1 : codes "+00:00" = codes "+00:0" ++ [48] := by decide
    have h3 : (t ++ codes "+00:00").getLast? = some 48 := by
      rw [e1, ← List.append_assoc]
      exact List.getLast?_concat _
    unfold zfix
    rw [if_pos h1, List.dropLast_concat, if_neg (by simp [h3])]
  · intro dt hoff
    simp [dtEpoch, hoff]
  · intro hn
    cases hv : pvTruthy v <;> simp [resolveWriteTime, hv, hn]

/-- Witness for C7 (amended): epoch 1700000000 is attached as seconds; the concrete ISO
string with `Z` parses as with `+00:00`; an unparseable string falls back to `now = 5`. -/
theorem producer_timestamp_handling_witness :
    resolveWriteTime (some (PV.num 1700000000)) 5 = effEpoch 1700000000 ∧
    fromisoformat (zfix (codes "2024-01-02T03:04:05" ++ [90])) =
      fromisoformat (zfix (codes "2024-01-02T03:04:05" ++ codes "+00:00")) ∧
    resolveWriteTime (some (PV.str "not-a-date")) 5 = 5 := by
  have h := producer_timestamp_handling 1700000000 5 (codes "2024-01-02T03:04:05")
    (PV.str "not-a-date")
  exact ⟨h.1 (by norm_num) (by decide), h.2.1, h.2.2.2.1 (by decide)⟩

lemma hexDig_ne_61 (m : Nat) : hexDig m ≠ 61 := by
  unfold hexDig
  split <;> omega

lemma mem_b16encode_is_hexDig {c : Nat} {bs : List Nat} (h : c ∈ b16encode bs) :
    ∃ m, c = hexDig m := by
  unfold b16encode at h
  simp only [List.mem_flatMap, List.mem_cons, List.mem_singleton, List.not_mem_nil,
    or_false] at h
  obtain ⟨b, _, hc | hc⟩ := h
  exacts [⟨b / 16, hc⟩, ⟨b % 16, hc⟩]

/-- C8 (code bug): whatever bytes the PIL enhancement produces, the text written to the
sibling `.origin` file is their base16 encoding — so it can never equal a base64 original
such as `aGVsbG8=` (base16 text has no `=`), contradicting the claim that the `.origin`
file retains the producer's original text for audit. -/
theorem origin_file_is_b16_of_enhanced (enhancedBytes : List Nat) :
    (originFileContent enhancedBytes == codes "aGVsbG8=") = false := by
  rw [beq_eq_false_iff_ne]
  intro he
  have h61 : (61 : Nat) ∈ codes "aGVsbG8=" := by decide
  rw [← he] at h61
  simp only [originFileContent] at h61
  obtain ⟨m, hm⟩ := mem_b16encode_is_hexDig h61
  exact hexDig_ne_61 m hm.symm

/-- C9: one call of the time-series writer attempts the write once when the first write
succeeds, and on a first failure performs exactly one reconnect (a fresh client/write-api
generation) and exactly one retry; every attempt writes the same point; the point is
dropped (with a log) exactly when both attempts fail; and the call returns in all four
cases (the embedding is a total function). -/
theorem influx_write_retry_behavior {α : Type} (gen : Nat) (fails : Nat → Bool) (p : α) :
    countTryWrites (influx_write_with_retry gen fails p).1 =
      (if fails gen then 2 else 1) ∧
    countReconnects (influx_write_with_retry gen fails p).1 =
      (if fails gen then 1 else 0) ∧
    pointsTried (influx_write_with_retry gen fails p).1 =
      List.replicate (countTryWrites (influx_write_with_retry gen fails p).1) p ∧
    droppedIn (influx_write_with_retry gen fails p).1 = (fails gen && fails (gen + 1)) := by
  cases h1 : fails gen <;> cases h2 : fails (gen + 1) <;>
    simp [influx_write_with_retry, h1, h2, countTryWrites, countReconnects, pointsTried,
      droppedIn, List.replicate]

/-- Witness for C3 (amended), at `d = "6c18"` and the colon-separated raw MAC
`AA:BB:CC:DD:6C:18`. -/
theorem device_id_resolution_amended_witness :
    resolve_topic_id (codes "6c18") = codes "6c18" ∧
    derive_device_id_from_mac (codes "6c18") = codes "6c18" ∧
    resolve_topic_id (codes "ge-sd-" ++ codes "6c18") = codes "6c18" ∧
    derive_device_id_from_mac (codes "ge-sd-" ++ codes "6c18") = codes "6c18" ∧
    derive_device_id_from_mac (codes "AA:BB:CC:DD:6C:18") = codes "6c18" :=
  device_id_resolution_amended (codes "6c18") (codes "AA:BB:CC:DD:6C:18")
    (by constructor <;> decide) (by decide) (by decide)

end GreenEye
